import Mathlib

/-!
Verification development for the GPU-resource and pipeline-construction core of
the spider-engine repository. Definitions are shallow embeddings of the C++
classes in `src/spider-engine/include/dx12_types.hpp` and
`src/spider engine/dx12_renderer.hpp`: machine-level `size_t` counters are
modelled as `Nat`, descriptor-heap storage as a `List Nat` of slot contents,
and fallible operations return `Except String`.
-/

namespace SpiderEngine

/-- Shader stages, from the `ShaderStage` enum in dx12_types.hpp. -/
inductive ShaderStage where
  | STAGE_ALL
  | STAGE_VERTEX
  | STAGE_HULL
  | STAGE_DOMAIN
  | STAGE_GEOMETRY
  | STAGE_PIXEL
  | STAGE_AMPLIFICATION
  | STAGE_MESH
deriving DecidableEq, Inhabited

/-!
## Descriptor heap arena (`DescriptorHeap`, `HeapAllocator`)

The `DescriptorHeap` struct holds a backing table of descriptor slots plus
`size` and `capacity` counters (dx12_types.hpp lines 486-498).  The backing
table contents are modelled as a `List Nat` whose length is the capacity, and
the running CPU/GPU write handles (`cpuHandle`/`gpuHandle`, which the code
advances by one slot per write) are modelled by a single slot offset.
`destroyDescriptorHeap` only releases the backing device object, which is
modelled by a `released` flag.
-/

structure DescriptorHeap where
  table : List Nat
  handleOffset : Nat
  size : Nat
  capacity : Nat
  released : Bool
deriving DecidableEq

/-- `HeapAllocator::createDescriptorHeap` (dx12_types.hpp lines 593-623):
a fresh heap of the requested capacity with `size = 0` and handles at the
heap start. -/
def createDescriptorHeap (descriptorHeapSize : Nat) : DescriptorHeap :=
  { table := List.replicate descriptorHeapSize 0
    handleOffset := 0
    size := 0
    capacity := descriptorHeapSize
    released := false }

/-- The copy count computed by `HeapAllocator::reallocateDescriptorHeap`
(dx12_types.hpp line 525): `std::min(descriptorHeap->size, newCapacity)`,
taken from the heap as it is at the moment of the call. -/
def reallocCopyCount (descriptorHeap : DescriptorHeap) (newCapacity : Nat) : Nat :=
  min descriptorHeap.size newCapacity

/-- `HeapAllocator::reallocateDescriptorHeap` (dx12_types.hpp lines 508-548):
creates a new backing table of `newCapacity` slots, copies `copyCount` slots
from the start of the old table to the start of the new one
(`CopyDescriptorsSimple`), offsets both handles by `copyCount`, and sets
`size := copyCount`.  Reads past the end of the old table (out of bounds in
the C++ code) are modelled by `List.getD` returning `0`. -/
def reallocateDescriptorHeap (descriptorHeap : DescriptorHeap) (newCapacity : Nat) :
    DescriptorHeap :=
  let copyCount := reallocCopyCount descriptorHeap newCapacity
  { table := (List.range newCapacity).map
      (fun i => if i < copyCount then descriptorHeap.table.getD i 0 else 0)
    handleOffset := copyCount
    size := copyCount
    capacity := newCapacity
    released := descriptorHeap.released }

/-- The per-slot writer loop of `HeapAllocator::writeOnDescriptorHeap`
(dx12_types.hpp lines 666-671): each iteration invokes the caller-supplied
writer (modelled as writing `vals i` at the current handle offset) and then
offsets both handles by one slot. -/
def writeSlotsLoop (vals : Nat → Nat) (i : Nat) (remaining : Nat)
    (descriptorHeap : DescriptorHeap) : DescriptorHeap :=
  match remaining with
  | 0 => descriptorHeap
  | Nat.succ k =>
    writeSlotsLoop vals (i + 1) k
      { descriptorHeap with
        table := descriptorHeap.table.set descriptorHeap.handleOffset (vals i)
        handleOffset := descriptorHeap.handleOffset + 1 }

/-- `HeapAllocator::writeOnDescriptorHeap` (dx12_types.hpp lines 651-672):
first `size += operationCount`; then, if `size > capacity`, the heap is
reallocated to `max(capacity * 2, size)`; finally the writer runs
`operationCount` times.  The second component reports the copy count used by
the reallocation (`none` when no reallocation happened). -/
def writeOnDescriptorHeap (descriptorHeap : DescriptorHeap) (operationCount : Nat)
    (vals : Nat → Nat) : DescriptorHeap × Option Nat :=
  let h1 := { descriptorHeap with size := descriptorHeap.size + operationCount }
  if h1.size > h1.capacity then
    let newCapacity := max (h1.capacity * 2) h1.size
    (writeSlotsLoop vals 0 operationCount (reallocateDescriptorHeap h1 newCapacity),
     some (reallocCopyCount h1 newCapacity))
  else
    (writeSlotsLoop vals 0 operationCount h1, none)

/-- `HeapAllocator::destroyDescriptorHeap` (dx12_types.hpp lines 674-681):
releases the backing device heap; the struct and its counters survive. -/
def destroyDescriptorHeap (descriptorHeap : DescriptorHeap) : DescriptorHeap :=
  { descriptorHeap with released := true }

/-- An allocator operation on one descriptor heap: a write of `count` slots
through a writer callback, or a destroy. -/
inductive HeapOp where
  | write (count : Nat) (vals : Nat → Nat)
  | destroy

/-- Apply one allocator operation. -/
def runHeapOp (descriptorHeap : DescriptorHeap) : HeapOp → DescriptorHeap
  | HeapOp.write n vals => (writeOnDescriptorHeap descriptorHeap n vals).1
  | HeapOp.destroy => destroyDescriptorHeap descriptorHeap

/-- The states visited after each operation of a sequence. -/
def runTrace (descriptorHeap : DescriptorHeap) : List HeapOp → List DescriptorHeap
  | [] => []
  | op :: rest =>
    let h2 := runHeapOp descriptorHeap op
    h2 :: runTrace h2 rest

/-!
## Binding registry (`RenderPipeline`, dx12_types.hpp lines 703-808)

The registries are `ska::flat_hash_map<std::pair<std::string, ShaderStage>, _>`
maps: unique keys, exact `(name, stage)` lookup.  They are modelled as
association lists searched front to back.
-/

/-- First-match lookup in an association list (models `flat_hash_map::find`). -/
def findEntry {κ α : Type} [DecidableEq κ] (m : List (κ × α)) (key : κ) : Option α :=
  match m with
  | [] => none
  | e :: rest => if e.1 = key then some e.2 else findEntry rest key

/-- Replace the value of the first entry with the given key (models mutation
through the iterator returned by `flat_hash_map::find`). -/
def modifyEntry {κ α : Type} [DecidableEq κ] (m : List (κ × α)) (key : κ) (f : α → α) :
    List (κ × α) :=
  match m with
  | [] => []
  | e :: rest => if e.1 = key then (e.1, f e.2) :: rest else e :: modifyEntry rest key f

/-- `ConstantBuffer` (dx12_types.hpp lines 203-261): the registry-visible
fields plus the byte contents of the region behind the mapped pointer. -/
structure ConstantBuffer where
  name : String
  sizeInBytes : Nat
  stage : ShaderStage
  index : Nat
  viewOffset : Nat
  mapped : List Nat
deriving DecidableEq, Inhabited

/-- `ConstantBuffer::copy` (dx12_types.hpp lines 231-234):
`memcpy(mappedData_, &data, sizeof(Ty))` overwrites the leading
`sizeof(Ty)` bytes of the mapped region with the bytes of `data`. -/
def ConstantBuffer.copy (cb : ConstantBuffer) (data : List Nat) : ConstantBuffer :=
  { cb with mapped := data ++ cb.mapped.drop data.length }

/-- `ShaderResourceView` (dx12_types.hpp lines 263-318): registry-visible
fields; `dataSource` records the data the backing view was created from. -/
structure ShaderResourceView where
  name : String
  sizeInBytes : Nat
  stage : ShaderStage
  index : Nat
  dataSource : List Nat
deriving DecidableEq, Inhabited

/-- `Sampler` (dx12_types.hpp lines 320-364): registry-visible fields. -/
structure Sampler where
  name : String
  stage : ShaderStage
  index : Nat
deriving DecidableEq, Inhabited

/-- The per-pipeline binding registries of `RenderPipeline`
(dx12_types.hpp lines 717-721). -/
structure RenderPipeline where
  requiredConstantBuffers : List ((String × ShaderStage) × ConstantBuffer)
  requiredShaderResourceViews : List ((String × ShaderStage) × ShaderResourceView)
deriving DecidableEq

/-- Error text thrown by `RenderPipeline::bindBuffer`. -/
def couldNotFindBufferMsg : String := "Could not find buffer"

/-- Error text thrown by `RenderPipeline::bindShaderResource`. -/
def couldNotFindShaderResourceMsg : String := "Could not find shader resource"

/-- `RenderPipeline::bindBuffer` (dx12_types.hpp lines 747-759): look up the
exact `(name, stage)` pair; on a miss throw `"Could not find buffer"`
(state untouched); on a hit copy `data` into the entry's mapped region. -/
def bindBuffer (p : RenderPipeline) (name : String) (stage : ShaderStage)
    (data : List Nat) : RenderPipeline × Except String Unit :=
  match findEntry p.requiredConstantBuffers (name, stage) with
  | none => (p, Except.error couldNotFindBufferMsg)
  | some _ =>
    ({ p with requiredConstantBuffers :=
        modifyEntry p.requiredConstantBuffers (name, stage) (fun cb => cb.copy data) },
     Except.ok ())

/-- `RenderPipeline::bindShaderResource` (dx12_types.hpp lines 761-773): look
up the exact `(name, stage)` pair; on a miss throw `"Could not find shader
resource"`; on a hit re-create the backing view from `data` through the
renderer member-function pointer (modelled by the `create` parameter) and
store the new view in the registry entry. -/
def bindShaderResource (create : String → List Nat → ShaderStage → ShaderResourceView)
    (p : RenderPipeline) (name : String) (stage : ShaderStage) (data : List Nat) :
    RenderPipeline × Except String Unit :=
  match findEntry p.requiredShaderResourceViews (name, stage) with
  | none => (p, Except.error couldNotFindShaderResourceMsg)
  | some _ =>
    ({ p with requiredShaderResourceViews :=
        (modifyEntry p.requiredShaderResourceViews (name, stage)
          (fun _ => create name data stage)) },
     Except.ok ())

/-!
## CPU/GPU synchronization (`SynchronizationObject`)

From dx12_types.hpp lines 404-484 (equivalently dx12_renderer.hpp lines
44-131).  `values_[i]` holds the last fence value submitted for in-flight
slot `i` (zero-initialized), `currentValue_` the monotonic counter.  The
fence's GPU-side completed value (`GetCompletedValue`) is an input of the
model; it only ever grows.
-/

structure SynchronizationObject where
  values : List Nat
  currentValue : Nat
  bufferCount : Nat
deriving DecidableEq

/-- The constructor (dx12_types.hpp lines 415-436): every per-slot value is
zero-initialized and the monotonic counter starts at zero. -/
def SynchronizationObject.make (bufferCount : Nat) : SynchronizationObject :=
  { values := List.replicate bufferCount 0
    currentValue := 0
    bufferCount := bufferCount }

/-- `SynchronizationObject::signal` (dx12_types.hpp lines 464-471): increment
the monotonic counter, record it for slot `index`, and enqueue a GPU-side
signal of the new value. -/
def SynchronizationObject.signal (s : SynchronizationObject) (index : Nat) :
    SynchronizationObject :=
  { s with
    currentValue := s.currentValue + 1
    values := s.values.set index (s.currentValue + 1) }

/-- The blocking test of `SynchronizationObject::wait` (dx12_types.hpp line
457): the calling thread blocks exactly when
`fence_->GetCompletedValue() < values_[index]`. -/
def waitBlocks (completedValue : Nat) (s : SynchronizationObject) (index : Nat) : Bool :=
  decide (completedValue < s.values.getD index 0)

/-- The fence's completed value at the moment `wait` returns (dx12_types.hpp
lines 453-462): if the test fails, `wait` returns at once with the current
completed value; otherwise `SetEventOnCompletion(values_[index], handle)` plus
`WaitForSingleObject` make it return when the fence has reached
`values_[index]`. -/
def waitReturnCompletedValue (completedValue : Nat) (s : SynchronizationObject)
    (index : Nat) : Nat :=
  if completedValue < s.values.getD index 0 then s.values.getD index 0 else completedValue

/-!
## Shader compilation and pipeline construction (`DX12Compiler`)

From dx12_renderer.hpp.  Compiled bytecode blobs are modelled as `String`;
the external DXC compiler is a parameter `backend`.
-/

/-- Error text thrown for `STAGE_ALL` (dx12_renderer.hpp lines 2280 and 2556). -/
def stageAllMsg : String := "Impossible to create shader to all stages at once."

/-- `DX12Compiler::compileShader` (dx12_renderer.hpp lines 2263-2346): the
stage switch runs before anything is loaded or compiled and throws for
`STAGE_ALL`; every other stage proceeds to invoke the external compiler. -/
def compileShader (backend : String → ShaderStage → String) (pathOrSource : String)
    (stage : ShaderStage) : Except String String :=
  match stage with
  | ShaderStage.STAGE_ALL => Except.error stageAllMsg
  | _ => Except.ok (backend pathOrSource stage)

/-- Whether an `Except` computation produced a value. -/
def exceptHasValue {ε α : Type} : Except ε α → Bool
  | Except.ok _ => true
  | Except.error _ => false

/-- The compile-and-reflect loop of `DX12Compiler::createRenderPipeline`
(dx12_renderer.hpp lines 2532-2578): each description is compiled
(`compileShader` throws for `STAGE_ALL` before producing bytecode), then the
stage switch throws for `STAGE_ALL` again (lines 2553-2557); a thrown error
aborts the whole build, so no pipeline value is returned. -/
def createRenderPipelineShaders (backend : String → ShaderStage → String) :
    List (String × ShaderStage) → Except String (List (String × ShaderStage))
  | [] => Except.ok []
  | d :: rest =>
    match compileShader backend d.1 d.2 with
    | Except.error e => Except.error e
    | Except.ok blob =>
      match d.2 with
      | ShaderStage.STAGE_ALL => Except.error stageAllMsg
      | _ =>
        match createRenderPipelineShaders backend rest with
        | Except.error e => Except.error e
        | Except.ok tl => Except.ok ((blob, d.2) :: tl)

/-!
## Root/table index assignment (`DX12Compiler::createRenderPipeline`)

During the compile loop (dx12_renderer.hpp lines 2540-2551) every raw
reflection binding point contributes one root parameter; its root index is the
global running count of parameters, and `rootIndexMap.emplace` records
`(name, stage) -> rootIndex` without overwriting earlier entries.  Later
(lines 2651-2668, 2725-2743, 2781-2799) each created constant buffer, shader
resource view, and sampler gets `index_` from the map on a hit, or from a
per-collection counter that starts at zero and increments per binding.
-/

/-- A raw reflection binding point, as recorded by `reflectResourceBindings`
(dx12_renderer.hpp lines 2181-2207): its name and the shader stage. -/
structure ResourceBindingData where
  name : String
  stage : ShaderStage
deriving DecidableEq, Inhabited

/-- `std::unordered_map::emplace`: insert only when the key is absent. -/
def emplaceRootIndex (m : List ((String × ShaderStage) × Nat))
    (key : String × ShaderStage) (v : Nat) : List ((String × ShaderStage) × Nat) :=
  match findEntry m key with
  | some _ => m
  | none => m ++ [(key, v)]

/-- Build `rootIndexMap` from the flattened sequence of binding points of all
shaders, in the order their root parameters are pushed; `rootIndex` is the
running size of the global parameter array. -/
def buildRootIndexMapFrom (m : List ((String × ShaderStage) × Nat)) (rootIndex : Nat) :
    List ResourceBindingData → List ((String × ShaderStage) × Nat)
  | [] => m
  | bp :: rest =>
    buildRootIndexMapFrom (emplaceRootIndex m (bp.name, bp.stage) rootIndex)
      (rootIndex + 1) rest

/-- The complete `rootIndexMap` (dx12_renderer.hpp lines 2531-2551). -/
def buildRootIndexMap (bindingPoints : List ResourceBindingData) :
    List ((String × ShaderStage) × Nat) :=
  buildRootIndexMapFrom [] 0 bindingPoints

/-- Position of the first binding point carrying the given `(name, stage)`
key, which is exactly its root parameter index. -/
def firstKeyIndex (key : String × ShaderStage) : List ResourceBindingData → Option Nat
  | [] => none
  | bp :: rest =>
    if (bp.name, bp.stage) = key then some 0
    else (firstKeyIndex key rest).map (· + 1)

/-- The index-assignment loop shared by the constant-buffer, shader-resource
and sampler passes (dx12_renderer.hpp lines 2651-2668, 2725-2743, 2781-2799):
bindings of one collection are visited in discovery order with a counter
starting at `index`; each binding's assigned slot is the `rootIndexMap` entry
for its `(name, stage)` key when present, the counter value otherwise. -/
def assignRootIndicesFrom (rootIndexMap : List ((String × ShaderStage) × Nat))
    (index : Nat) : List (String × ShaderStage) → List Nat
  | [] => []
  | key :: rest =>
    (match findEntry rootIndexMap key with
     | some r => r
     | none => index) :: assignRootIndicesFrom rootIndexMap (index + 1) rest

/-!
## Batch resource creation (`DX12Renderer`)

`createConstantBuffers` (dx12_renderer.hpp lines 894-978 and 979-1057),
`createShaderResourceViews` for textures (lines 1472-1540), and
`createSamplers` (lines 1650-1699).  Each records the number of device
objects created (descriptor heaps, committed resources, and views/samplers
written into them).
-/

/-- The 256-byte alignment applied to every constant-buffer size
(dx12_renderer.hpp lines 846-847 and 902-909): `(size + 255) & ~255` in
64-bit `size_t` arithmetic. -/
def align256 (size : Nat) : Nat :=
  ((size + 255) % 2 ^ 64) &&& (2 ^ 64 - 256)

/-- `DX12Renderer::createConstantBuffer` (dx12_renderer.hpp lines 843-893):
a single buffer whose recorded `sizeInBytes_` is the aligned size and whose
view sits at the start of its own committed resource. -/
def createConstantBuffer (name : String) (size : Nat) : ConstantBuffer :=
  { name := name
    sizeInBytes := align256 size
    stage := ShaderStage.STAGE_ALL
    index := 0
    viewOffset := 0
    mapped := [] }

/-- Result of a batch `createConstantBuffers` call. -/
structure ConstantBuffersCreation where
  buffers : List ConstantBuffer
  deviceObjectsCreated : Nat
  resourceSizeInBytes : Nat
deriving DecidableEq

/-- `DX12Renderer::createConstantBuffers` (dx12_renderer.hpp lines 894-978):
with zero sizes it returns the empty range before touching the device;
otherwise one descriptor heap and one committed resource of the summed
aligned sizes are created, and buffer `i` records the aligned size of
`sizes[i]`, index `i`, and a view placed at the running aligned offset. -/
def createConstantBuffers (names : List String) (sizes : List Nat)
    (stage : ShaderStage) : ConstantBuffersCreation :=
  if sizes.length = 0 then ⟨[], 0, 0⟩
  else
    { buffers := (List.range sizes.length).map (fun i =>
        { name := names.getD i ""
          sizeInBytes := align256 (sizes.getD i 0)
          stage := stage
          index := i
          viewOffset := ((sizes.take i).map align256).sum
          mapped := [] })
      deviceObjectsCreated := 2 + sizes.length
      resourceSizeInBytes := (sizes.map align256).sum }

/-- Result of a batch `createShaderResourceViews` call. -/
structure ShaderResourceViewsCreation where
  views : List ShaderResourceView
  deviceObjectsCreated : Nat
deriving DecidableEq

/-- `DX12Renderer::createShaderResourceViews` for textures (dx12_renderer.hpp
lines 1472-1540): with zero textures it returns the empty range before
touching the device; otherwise one descriptor heap plus one view per texture,
where texture `i` is `(width, height)` and its size is `width * height * 4`. -/
def createShaderResourceViews (names : List String) (data : List (Nat × Nat))
    (stage : ShaderStage) : ShaderResourceViewsCreation :=
  if data.length = 0 then ⟨[], 0⟩
  else
    { views := (List.range data.length).map (fun i =>
        { name := names.getD i ""
          sizeInBytes := (data.getD i (0, 0)).1 * (data.getD i (0, 0)).2 * 4
          stage := stage
          index := i
          dataSource := [] })
      deviceObjectsCreated := 1 + data.length }

/-- Result of a batch `createSamplers` call. -/
structure SamplersCreation where
  samplers : List Sampler
  deviceObjectsCreated : Nat
deriving DecidableEq

/-- `DX12Renderer::createSamplers` (dx12_renderer.hpp lines 1650-1699): with
zero names it returns the empty range before touching the device; otherwise
one descriptor heap plus one sampler per name. -/
def createSamplers (names : List String) (stage : ShaderStage) : SamplersCreation :=
  if names.length = 0 then ⟨[], 0⟩
  else
    { samplers := (List.range names.length).map (fun i =>
        { name := names.getD i ""
          stage := stage
          index := i })
      deviceObjectsCreated := 1 + names.length }

/-!
## Sample inputs used to evaluate the model at concrete states
-/

/-- A heap of capacity 2 filled by two single-slot writes (values 10, 20). -/
def heapAfterTwoWrites : DescriptorHeap :=
  (writeOnDescriptorHeap
    (writeOnDescriptorHeap (createDescriptorHeap 2) 1 (fun _ => 10)).1 1 (fun _ => 20)).1

/-- A sample registered constant buffer. -/
def cb0 : ConstantBuffer :=
  { name := "color", sizeInBytes := 256, stage := ShaderStage.STAGE_PIXEL,
    index := 0, viewOffset := 0, mapped := [0, 0, 0, 0] }

/-- A sample registered shader resource view. -/
def srv0 : ShaderResourceView :=
  { name := "tex", sizeInBytes := 16, stage := ShaderStage.STAGE_PIXEL,
    index := 0, dataSource := [] }

/-- A sample pipeline with one constant buffer and one resource view. -/
def pipeline0 : RenderPipeline :=
  { requiredConstantBuffers := [(("color", ShaderStage.STAGE_PIXEL), cb0)]
    requiredShaderResourceViews := [(("tex", ShaderStage.STAGE_PIXEL), srv0)] }

/-- A sample view-creation routine standing for
`DX12Renderer::createShaderResourceViewForStructuredData`. -/
def mkView (name : String) (data : List Nat) (stage : ShaderStage) : ShaderResourceView :=
  { name := name, sizeInBytes := data.length, stage := stage, index := 0, dataSource := data }

/-- Sample raw-reflection binding points. -/
def bindingPoints0 : List ResourceBindingData :=
  [{ name := "tex", stage := ShaderStage.STAGE_PIXEL },
   { name := "cb0", stage := ShaderStage.STAGE_VERTEX }]

/-- Sample discovered-binding keys in discovery order. -/
def keys0 : List (String × ShaderStage) :=
  [("cb0", ShaderStage.STAGE_VERTEX), ("unmatched", ShaderStage.STAGE_VERTEX)]

/-!
## Theorems
-/

theorem writeSlotsLoop_size (vals : Nat → Nat) (i n : Nat) (h : DescriptorHeap) :
    (writeSlotsLoop vals i n h).size = h.size := by
  induction n generalizing i h with
  | zero => rfl
  | succ k ih => simpa [writeSlotsLoop] using ih (i + 1) _

theorem writeSlotsLoop_capacity (vals : Nat → Nat) (i n : Nat) (h : DescriptorHeap) :
    (writeSlotsLoop vals i n h).capacity = h.capacity := by
  induction n generalizing i h with
  | zero => rfl
  | succ k ih => simpa [writeSlotsLoop] using ih (i + 1) _

theorem writeOnDescriptorHeap_grow (h : DescriptorHeap) (n : Nat) (vals : Nat → Nat)
    (hgt : h.size + n > h.capacity) :
    writeOnDescriptorHeap h n vals =
      (writeSlotsLoop vals 0 n
        (reallocateDescriptorHeap { h with size := h.size + n }
          (max (h.capacity * 2) (h.size + n))),
       some (reallocCopyCount { h with size := h.size + n }
          (max (h.capacity * 2) (h.size + n)))) := by
  simp [writeOnDescriptorHeap, hgt]

theorem writeOnDescriptorHeap_nogrow (h : DescriptorHeap) (n : Nat) (vals : Nat → Nat)
    (hle : h.size + n ≤ h.capacity) :
    writeOnDescriptorHeap h n vals =
      (writeSlotsLoop vals 0 n { h with size := h.size + n }, none) := by
  simp [writeOnDescriptorHeap, Nat.not_lt.mpr hle]

/-- Claim C1 (status: code bug in the source).  The spec requires that growth
during `writeOnDescriptorHeap` copies exactly `size_before` slots.  The code
increments `size` by `operationCount` before calling
`reallocateDescriptorHeap`, whose copy count is `min(size, newCapacity)`; the
reallocation therefore copies `size_before + count` slots, reading past the
end of the old table.  Concretely: a heap of capacity 2 holding 2 written
slots receives one more write; the copy count used is 3, not 2, the slot at
relative offset 2 of the new table holds junk copied from out of bounds, and
the newly written descriptor lands at offset 3 instead of offset 2. -/
theorem C1_growth_copy_count_bug :
    heapAfterTwoWrites.size = 2 ∧
    (writeOnDescriptorHeap heapAfterTwoWrites 1 (fun _ => 30)).2 = some 3 ∧
    (writeOnDescriptorHeap heapAfterTwoWrites 1 (fun _ => 30)).1.table.getD 2 0 = 0 ∧
    (writeOnDescriptorHeap heapAfterTwoWrites 1 (fun _ => 30)).1.table.getD 3 0 = 30 := by
  decide

/-- Claim C2: a write of `n` slots onto a heap with size `s` and capacity `c`
reallocates the backing table to capacity exactly `max(c * 2, s + n)` when
`s + n > c`, and performs no reallocation otherwise. -/
theorem C2_write_growth_exact_capacity (h : DescriptorHeap) (n : Nat) (vals : Nat → Nat) :
    (h.size + n > h.capacity →
      (writeOnDescriptorHeap h n vals).1.capacity = max (h.capacity * 2) (h.size + n) ∧
      (writeOnDescriptorHeap h n vals).2.isSome = true) ∧
    (h.size + n ≤ h.capacity →
      (writeOnDescriptorHeap h n vals).1.capacity = h.capacity ∧
      (writeOnDescriptorHeap h n vals).2 = none) := by
  constructor
  · intro hgt
    rw [writeOnDescriptorHeap_grow h n vals hgt]
    simp [writeSlotsLoop_capacity, reallocateDescriptorHeap]
  · intro hle
    rw [writeOnDescriptorHeap_nogrow h n vals hle]
    simp [writeSlotsLoop_capacity]

theorem C2_write_growth_exact_capacity_witness :
    ((writeOnDescriptorHeap heapAfterTwoWrites 1 (fun _ => 30)).1.capacity =
      max (heapAfterTwoWrites.capacity * 2) (heapAfterTwoWrites.size + 1)) ∧
    ((writeOnDescriptorHeap heapAfterTwoWrites 1 (fun _ => 30)).2 = none → False) ∧
    ((writeOnDescriptorHeap (createDescriptorHeap 4) 2 (fun _ => 0)).2 = none) := by
  refine ⟨?_, ?_, ?_⟩
  · exact ((C2_write_growth_exact_capacity heapAfterTwoWrites 1 (fun _ => 30)).1
      (by decide)).1
  · intro hnone
    have := ((C2_write_growth_exact_capacity heapAfterTwoWrites 1 (fun _ => 30)).1
      (by decide)).2
    rw [hnone] at this
    exact Bool.noConfusion this
  · exact ((C2_write_growth_exact_capacity (createDescriptorHeap 4) 2 (fun _ => 0)).2
      (by decide)).2

theorem runHeapOp_size_le (h : DescriptorHeap) (op : HeapOp)
    (hinv : h.size ≤ h.capacity) : (runHeapOp h op).size ≤ (runHeapOp h op).capacity := by
  cases op with
  | destroy => simpa [runHeapOp, destroyDescriptorHeap] using hinv
  | write n vals =>
    by_cases hgt : h.size + n > h.capacity
    · simp only [runHeapOp, writeOnDescriptorHeap_grow h n vals hgt]
      simp [writeSlotsLoop_size, writeSlotsLoop_capacity, reallocateDescriptorHeap,
        reallocCopyCount]
    · simp only [runHeapOp, writeOnDescriptorHeap_nogrow h n vals (Nat.not_lt.mp hgt)]
      simpa [writeSlotsLoop_size, writeSlotsLoop_capacity] using Nat.not_lt.mp hgt

theorem runHeapOp_capacity_le (h : DescriptorHeap) (op : HeapOp) :
    h.capacity ≤ (runHeapOp h op).capacity := by
  cases op with
  | destroy => simp [runHeapOp, destroyDescriptorHeap]
  | write n vals =>
    by_cases hgt : h.size + n > h.capacity
    · simp only [runHeapOp, writeOnDescriptorHeap_grow h n vals hgt]
      simp only [writeSlotsLoop_capacity, reallocateDescriptorHeap]
      exact le_trans (by omega) (le_max_left (h.capacity * 2) (h.size + n))
    · simp [runHeapOp, writeOnDescriptorHeap_nogrow h n vals (Nat.not_lt.mp hgt),
        writeSlotsLoop_capacity]

theorem foldl_runHeapOp_capacity_mono (ops : List HeapOp) (h : DescriptorHeap) :
    h.capacity ≤ (ops.foldl runHeapOp h).capacity := by
  induction ops generalizing h with
  | nil => simp
  | cons op rest ih =>
    exact le_trans (runHeapOp_capacity_le h op) (by simpa using ih (runHeapOp h op))

theorem runTrace_invariant (ops : List HeapOp) (h : DescriptorHeap)
    (hinv : h.size ≤ h.capacity) :
    ∀ s ∈ runTrace h ops, s.size ≤ s.capacity := by
  induction ops generalizing h with
  | nil => intro s hs; simp [runTrace] at hs
  | cons op rest ih =>
    intro s hs
    simp only [runTrace, List.mem_cons] at hs
    cases hs with
    | inl heq => exact heq ▸ runHeapOp_size_le h op hinv
    | inr hmem => exact ih (runHeapOp h op) (runHeapOp_size_le h op hinv) s hmem

/-- Claim C3: starting from a freshly created heap, after every operation of
any sequence of writes and destroys the invariant `size ≤ capacity` holds,
and the capacity never decreases over the heap's lifetime (running any suffix
of further operations can only keep or raise it). -/
theorem C3_size_le_capacity_and_capacity_monotone (cap : Nat) (ops more : List HeapOp) :
    (∀ s ∈ runTrace (createDescriptorHeap cap) ops, s.size ≤ s.capacity) ∧
    (ops.foldl runHeapOp (createDescriptorHeap cap)).capacity ≤
      ((ops ++ more).foldl runHeapOp (createDescriptorHeap cap)).capacity := by
  constructor
  · exact runTrace_invariant ops _ (by simp [createDescriptorHeap])
  · rw [List.foldl_append]
    exact foldl_runHeapOp_capacity_mono more _

theorem C3_size_le_capacity_and_capacity_monotone_witness :
    heapAfterTwoWrites.size ≤ heapAfterTwoWrites.capacity :=
  (C3_size_le_capacity_and_capacity_monotone 2
      [HeapOp.write 1 (fun _ => 10), HeapOp.write 1 (fun _ => 20)] []).1
    heapAfterTwoWrites (by
      refine List.mem_cons.mpr (Or.inr ?_)
      exact List.mem_cons.mpr (Or.inl rfl))

theorem modifyEntry_keys {κ α : Type} [DecidableEq κ] (m : List (κ × α)) (key : κ)
    (f : α → α) : (modifyEntry m key f).map Prod.fst = m.map Prod.fst := by
  induction m with
  | nil => rfl
  | cons e rest ih => by_cases he : e.1 = key <;> simp [modifyEntry, he, ih]

theorem findEntry_modifyEntry_self {κ α : Type} [DecidableEq κ] (m : List (κ × α))
    (key : κ) (f : α → α) (v : α) (hf : findEntry m key = some v) :
    findEntry (modifyEntry m key f) key = some (f v) := by
  induction m with
  | nil => simp [findEntry] at hf
  | cons e rest ih =>
    by_cases he : e.1 = key
    · rw [show findEntry (e :: rest) key = if e.1 = key then some e.2 else findEntry rest key
          from rfl, if_pos he] at hf
      injection hf with hv
      rw [show modifyEntry (e :: rest) key f
            = if e.1 = key then (e.1, f e.2) :: rest else e :: modifyEntry rest key f
          from rfl, if_pos he,
        show findEntry ((e.1, f e.2) :: rest) key
            = if e.1 = key then some (f e.2) else findEntry rest key from rfl,
        if_pos he, hv]
    · rw [show findEntry (e :: rest) key = if e.1 = key then some e.2 else findEntry rest key
          from rfl, if_neg he] at hf
      rw [show modifyEntry (e :: rest) key f
            = if e.1 = key then (e.1, f e.2) :: rest else e :: modifyEntry rest key f
          from rfl, if_neg he,
        show findEntry (e :: modifyEntry rest key f) key
            = if e.1 = key then some e.2 else findEntry (modifyEntry rest key f) key
          from rfl, if_neg he]
      exact ih hf

theorem findEntry_modifyEntry_ne {κ α : Type} [DecidableEq κ] (m : List (κ × α))
    (key key2 : κ) (f : α → α) (hne : key2 ≠ key) :
    findEntry (modifyEntry m key f) key2 = findEntry m key2 := by
  induction m with
  | nil => rfl
  | cons e rest ih =>
    by_cases he : e.1 = key
    · have hne2 : ¬ e.1 = key2 := fun h => hne (h ▸ he)
      rw [show modifyEntry (e :: rest) key f
            = if e.1 = key then (e.1, f e.2) :: rest else e :: modifyEntry rest key f
          from rfl, if_pos he,
        show findEntry ((e.1, f e.2) :: rest) key2
            = if e.1 = key2 then some (f e.2) else findEntry rest key2 from rfl,
        if_neg hne2,
        show findEntry (e :: rest) key2
            = if e.1 = key2 then some e.2 else findEntry rest key2 from rfl,
        if_neg hne2]
    · rw [show modifyEntry (e :: rest) key f
            = if e.1 = key then (e.1, f e.2) :: rest else e :: modifyEntry rest key f
          from rfl, if_neg he,
        show findEntry (e :: modifyEntry rest key f) key2
            = if e.1 = key2 then some e.2 else findEntry (modifyEntry rest key f) key2
          from rfl,
        show findEntry (e :: rest) key2
            = if e.1 = key2 then some e.2 else findEntry rest key2 from rfl,
        ih]

theorem bindBuffer_found (p : RenderPipeline) (name : String) (stage : ShaderStage)
    (data : List Nat) (cb : ConstantBuffer)
    (hcb : findEntry p.requiredConstantBuffers (name, stage) = some cb) :
    bindBuffer p name stage data =
      ({ p with requiredConstantBuffers :=
          modifyEntry p.requiredConstantBuffers (name, stage) (fun b => b.copy data) },
       Except.ok ()) := by
  unfold bindBuffer
  rw [hcb]

theorem bindShaderResource_found
    (create : String → List Nat → ShaderStage → ShaderResourceView)
    (p : RenderPipeline) (name : String) (stage : ShaderStage) (data : List Nat)
    (sv : ShaderResourceView)
    (hsv : findEntry p.requiredShaderResourceViews (name, stage) = some sv) :
    bindShaderResource create p name stage data =
      ({ p with requiredShaderResourceViews :=
          (modifyEntry p.requiredShaderResourceViews (name, stage)
            (fun _ => create name data stage)) },
       Except.ok ()) := by
  unfold bindShaderResource
  rw [hsv]

/-- Claim C4: `bindBuffer(name, stage, data)` with no registry entry for the
exact `(name, stage)` pair fails with the lookup error `"Could not find
buffer"` and leaves the pipeline (registry and all constant-buffer contents)
untouched; with an entry present it succeeds, the bytes of `data` are copied
over the leading bytes of that entry's mapped region, the copy changes no
other field of the buffer, the registry keys are unchanged, every other entry
is unchanged, and the resource-view registry is unchanged. -/
theorem C4_bindBuffer_contract (p : RenderPipeline) (name : String)
    (stage : ShaderStage) (data : List Nat) :
    (findEntry p.requiredConstantBuffers (name, stage) = none →
      bindBuffer p name stage data = (p, Except.error couldNotFindBufferMsg)) ∧
    (∀ cb, findEntry p.requiredConstantBuffers (name, stage) = some cb →
      (bindBuffer p name stage data).2 = Except.ok () ∧
      findEntry (bindBuffer p name stage data).1.requiredConstantBuffers (name, stage)
        = some (cb.copy data) ∧
      (cb.copy data).mapped = data ++ cb.mapped.drop data.length ∧
      (cb.copy data).name = cb.name ∧
      (cb.copy data).stage = cb.stage ∧
      (cb.copy data).index = cb.index ∧
      (bindBuffer p name stage data).1.requiredConstantBuffers.map Prod.fst
        = p.requiredConstantBuffers.map Prod.fst ∧
      (∀ key2, key2 ≠ (name, stage) →
        findEntry (bindBuffer p name stage data).1.requiredConstantBuffers key2
          = findEntry p.requiredConstantBuffers key2) ∧
      (bindBuffer p name stage data).1.requiredShaderResourceViews
        = p.requiredShaderResourceViews) := by
  constructor
  · intro hmiss
    unfold bindBuffer
    rw [hmiss]
  · intro cb hcb
    rw [bindBuffer_found p name stage data cb hcb]
    exact ⟨rfl, findEntry_modifyEntry_self _ _ _ cb hcb, rfl, rfl, rfl, rfl,
      modifyEntry_keys _ _ _,
      fun key2 hne => findEntry_modifyEntry_ne _ _ _ _ hne, rfl⟩

theorem C4_bindBuffer_contract_witness :
    bindBuffer pipeline0 "missing" ShaderStage.STAGE_VERTEX [1]
      = (pipeline0, Except.error couldNotFindBufferMsg) ∧
    (bindBuffer pipeline0 "color" ShaderStage.STAGE_PIXEL [7, 8]).2 = Except.ok () ∧
    findEntry
        (bindBuffer pipeline0 "color" ShaderStage.STAGE_PIXEL [7, 8]).1.requiredConstantBuffers
        ("color", ShaderStage.STAGE_PIXEL)
      = some (cb0.copy [7, 8]) :=
  ⟨(C4_bindBuffer_contract pipeline0 "missing" ShaderStage.STAGE_VERTEX [1]).1 (by decide),
   ((C4_bindBuffer_contract pipeline0 "color" ShaderStage.STAGE_PIXEL [7, 8]).2 cb0
      (by decide)).1,
   ((C4_bindBuffer_contract pipeline0 "color" ShaderStage.STAGE_PIXEL [7, 8]).2 cb0
      (by decide)).2.1⟩

/-- Claim C5: the resource-view rebind operation `bindShaderResource(name,
stage, data)` with no registry entry for the exact `(name, stage)` pair fails
with a lookup error and changes nothing; with an entry present the backing
view is re-created from `data` (through the renderer's creation routine) and
the registry entry is replaced with the newly created view, while the
registry keys, all other entries, and the constant-buffer registry stay
unchanged. -/
theorem C5_bindShaderResource_contract
    (create : String → List Nat → ShaderStage → ShaderResourceView)
    (p : RenderPipeline) (name : String) (stage : ShaderStage) (data : List Nat) :
    (findEntry p.requiredShaderResourceViews (name, stage) = none →
      bindShaderResource create p name stage data
        = (p, Except.error couldNotFindShaderResourceMsg)) ∧
    (∀ sv, findEntry p.requiredShaderResourceViews (name, stage) = some sv →
      (bindShaderResource create p name stage data).2 = Except.ok () ∧
      findEntry
          (bindShaderResource create p name stage data).1.requiredShaderResourceViews
          (name, stage)
        = some (create name data stage) ∧
      (bindShaderResource create p name stage data).1.requiredShaderResourceViews.map
          Prod.fst
        = p.requiredShaderResourceViews.map Prod.fst ∧
      (∀ key2, key2 ≠ (name, stage) →
        findEntry
            (bindShaderResource create p name stage data).1.requiredShaderResourceViews
            key2
          = findEntry p.requiredShaderResourceViews key2) ∧
      (bindShaderResource create p name stage data).1.requiredConstantBuffers
        = p.requiredConstantBuffers) := by
  constructor
  · intro hmiss
    unfold bindShaderResource
    rw [hmiss]
  · intro sv hsv
    rw [bindShaderResource_found create p name stage data sv hsv]
    exact ⟨rfl, findEntry_modifyEntry_self _ _ _ sv hsv,
      modifyEntry_keys _ _ _,
      fun key2 hne => findEntry_modifyEntry_ne _ _ _ _ hne, rfl⟩

theorem C5_bindShaderResource_contract_witness :
    bindShaderResource mkView pipeline0 "missing" ShaderStage.STAGE_VERTEX [1]
      = (pipeline0, Except.error couldNotFindShaderResourceMsg) ∧
    (bindShaderResource mkView pipeline0 "tex" ShaderStage.STAGE_PIXEL [9]).2
      = Except.ok () ∧
    findEntry
        (bindShaderResource mkView pipeline0 "tex"
          ShaderStage.STAGE_PIXEL [9]).1.requiredShaderResourceViews
        ("tex", ShaderStage.STAGE_PIXEL)
      = some (mkView "tex" [9] ShaderStage.STAGE_PIXEL) :=
  ⟨(C5_bindShaderResource_contract mkView pipeline0 "missing"
      ShaderStage.STAGE_VERTEX [1]).1 (by decide),
   ((C5_bindShaderResource_contract mkView pipeline0 "tex"
      ShaderStage.STAGE_PIXEL [9]).2 srv0 (by decide)).1,
   ((C5_bindShaderResource_contract mkView pipeline0 "tex"
      ShaderStage.STAGE_PIXEL [9]).2 srv0 (by decide)).2.1⟩

/-- Claim C6: for every in-flight slot and every entry completed value,
`wait(i)` returns only once the fence's completed value has reached the value
last recorded for slot `i` by `signal` (blocking path included); it does not
block when that condition already holds — in particular on a never-signaled
slot, whose recorded value is zero, it never blocks — and since the fence's
completed value never decreases, any completed value at or past the one at
which the first `wait(i)` returned makes an immediately following `wait(i)`
with no intervening `signal` return without blocking. -/
theorem C6_wait_contract (completedValue completedLater bufferCount index : Nat)
    (s : SynchronizationObject) :
    s.values.getD index 0 ≤ waitReturnCompletedValue completedValue s index ∧
    (s.values.getD index 0 ≤ completedValue →
      waitBlocks completedValue s index = false) ∧
    (SynchronizationObject.make bufferCount).values.getD index 0 = 0 ∧
    waitBlocks completedValue (SynchronizationObject.make bufferCount) index = false ∧
    (waitReturnCompletedValue completedValue s index ≤ completedLater →
      waitBlocks completedLater s index = false) := by
  have hfresh : (SynchronizationObject.make bufferCount).values.getD index 0 = 0 := by
    unfold SynchronizationObject.make
    simp only [List.getD, List.get?_eq_getElem?, List.getElem?_replicate]
    split <;> rfl
  refine ⟨?_, ?_, hfresh, ?_, ?_⟩
  · unfold waitReturnCompletedValue
    split <;> omega
  · intro hsat
    exact decide_eq_false (Nat.not_lt.mpr hsat)
  · refine decide_eq_false ?_
    rw [hfresh]
    exact Nat.not_lt.mpr (Nat.zero_le _)
  · intro hmono
    refine decide_eq_false (Nat.not_lt.mpr ?_)
    unfold waitReturnCompletedValue at hmono
    rcases Nat.lt_or_ge completedValue (s.values.getD index 0) with hlt | hge
    · rw [if_pos hlt] at hmono
      exact hmono
    · rw [if_neg (Nat.not_lt.mpr hge)] at hmono
      exact le_trans hge hmono

theorem C6_wait_contract_witness :
    (((SynchronizationObject.make 2).signal 0).values.getD 0 0
      ≤ waitReturnCompletedValue 0 ((SynchronizationObject.make 2).signal 0) 0) ∧
    waitBlocks (waitReturnCompletedValue 0 ((SynchronizationObject.make 2).signal 0) 0)
      ((SynchronizationObject.make 2).signal 0) 0 = false ∧
    waitBlocks 0 (SynchronizationObject.make 2) 1 = false :=
  ⟨(C6_wait_contract 0 0 2 0 ((SynchronizationObject.make 2).signal 0)).1,
   (C6_wait_contract 0
      (waitReturnCompletedValue 0 ((SynchronizationObject.make 2).signal 0) 0) 2 0
      ((SynchronizationObject.make 2).signal 0)).2.2.2.2 (le_refl _),
   (C6_wait_contract 0 0 2 1 (SynchronizationObject.make 2)).2.2.2.1⟩

theorem createRenderPipelineShaders_cons_error (backend : String → ShaderStage → String)
    (d : String × ShaderStage) (rest : List (String × ShaderStage))
    (hrest : exceptHasValue (createRenderPipelineShaders backend rest) = false) :
    exceptHasValue (createRenderPipelineShaders backend (d :: rest)) = false := by
  cases d with
  | mk src st =>
    cases hrec : createRenderPipelineShaders backend rest with
    | error e =>
      cases st <;>
        simp [createRenderPipelineShaders, compileShader, hrec, exceptHasValue]
    | ok tl =>
      rw [hrec] at hrest
      exact Bool.noConfusion hrest

/-- Claim C7: a compile request for `STAGE_ALL` throws
`"Impossible to create shader to all stages at once."` without invoking the
external compiler (the result is this error for every backend, so no bytecode
is produced), and a pipeline build containing a `STAGE_ALL` description
aborts with an error, returning no pipeline value. -/
theorem C7_stage_all_rejected (backend : String → ShaderStage → String)
    (pathOrSource : String) (descriptions : List (String × ShaderStage))
    (hall : ∃ d ∈ descriptions, d.2 = ShaderStage.STAGE_ALL) :
    compileShader backend pathOrSource ShaderStage.STAGE_ALL
      = Except.error stageAllMsg ∧
    exceptHasValue (createRenderPipelineShaders backend descriptions) = false := by
  refine ⟨rfl, ?_⟩
  induction descriptions with
  | nil => simp at hall
  | cons d rest ih =>
    rcases hall with ⟨d2, hd2, hstage⟩
    rcases List.mem_cons.mp hd2 with heq | hmem
    · subst heq
      cases d2 with
      | mk src st =>
        cases hstage
        rfl
    · exact createRenderPipelineShaders_cons_error backend d rest (ih ⟨d2, hmem, hstage⟩)

theorem C7_stage_all_rejected_witness :
    compileShader (fun _ _ => "bytecode") "shader.hlsl" ShaderStage.STAGE_ALL
      = Except.error stageAllMsg ∧
    exceptHasValue
        (createRenderPipelineShaders (fun _ _ => "bytecode")
          [("vs.hlsl", ShaderStage.STAGE_VERTEX), ("all.hlsl", ShaderStage.STAGE_ALL)])
      = false :=
  C7_stage_all_rejected (fun _ _ => "bytecode") "shader.hlsl"
    [("vs.hlsl", ShaderStage.STAGE_VERTEX), ("all.hlsl", ShaderStage.STAGE_ALL)]
    ⟨("all.hlsl", ShaderStage.STAGE_ALL), by decide, rfl⟩

theorem findEntry_append {κ α : Type} [DecidableEq κ] (m1 m2 : List (κ × α)) (key : κ) :
    findEntry (m1 ++ m2) key =
      match findEntry m1 key with
      | some v => some v
      | none => findEntry m2 key := by
  induction m1 with
  | nil => rfl
  | cons e rest ih =>
    by_cases he : e.1 = key <;> simp [findEntry, he, ih]

theorem findEntry_emplaceRootIndex_of_found (m : List ((String × ShaderStage) × Nat))
    (k k2 : String × ShaderStage) (v w : Nat) (h : findEntry m k2 = some w) :
    findEntry (emplaceRootIndex m k v) k2 = some w := by
  unfold emplaceRootIndex
  cases hk : findEntry m k with
  | some _ => exact h
  | none => rw [findEntry_append, h]

theorem findEntry_emplaceRootIndex_of_none_ne (m : List ((String × ShaderStage) × Nat))
    (k k2 : String × ShaderStage) (v : Nat) (h : findEntry m k2 = none) (hne : k ≠ k2) :
    findEntry (emplaceRootIndex m k v) k2 = none := by
  unfold emplaceRootIndex
  cases hk : findEntry m k with
  | some _ => exact h
  | none =>
    rw [findEntry_append, h]
    simp [findEntry, hne]

theorem findEntry_emplaceRootIndex_self_new (m : List ((String × ShaderStage) × Nat))
    (k : String × ShaderStage) (v : Nat) (h : findEntry m k = none) :
    findEntry (emplaceRootIndex m k v) k = some v := by
  unfold emplaceRootIndex
  rw [h, findEntry_append, h]
  simp [findEntry]

theorem buildRootIndexMapFrom_lookup (bps : List ResourceBindingData)
    (m : List ((String × ShaderStage) × Nat)) (r : Nat) (key : String × ShaderStage) :
    findEntry (buildRootIndexMapFrom m r bps) key =
      match findEntry m key with
      | some v => some v
      | none => (firstKeyIndex key bps).map (· + r) := by
  induction bps generalizing m r with
  | nil => cases h : findEntry m key <;> simp [buildRootIndexMapFrom, firstKeyIndex, h]
  | cons bp rest ih =>
    show findEntry (buildRootIndexMapFrom (emplaceRootIndex m (bp.name, bp.stage) r)
        (r + 1) rest) key = _
    rw [ih]
    cases hm : findEntry m key with
    | some v =>
      rw [findEntry_emplaceRootIndex_of_found m (bp.name, bp.stage) key r v hm]
    | none =>
      by_cases hk : (bp.name, bp.stage) = key
      · subst hk
        rw [findEntry_emplaceRootIndex_self_new m (bp.name, bp.stage) r hm]
        simp [firstKeyIndex]
      · rw [findEntry_emplaceRootIndex_of_none_ne m (bp.name, bp.stage) key r hm hk]
        simp only [firstKeyIndex, if_neg hk]
        cases firstKeyIndex key rest <;> simp [Nat.add_assoc, Nat.add_comm 1 r]

theorem buildRootIndexMap_lookup (bps : List ResourceBindingData)
    (key : String × ShaderStage) :
    findEntry (buildRootIndexMap bps) key = firstKeyIndex key bps := by
  rw [buildRootIndexMap, buildRootIndexMapFrom_lookup]
  show (firstKeyIndex key bps).map (· + 0) = _
  cases firstKeyIndex key bps <;> simp

theorem assignRootIndicesFrom_getD (rim : List ((String × ShaderStage) × Nat))
    (keys : List (String × ShaderStage)) (start i : Nat) (hi : i < keys.length) :
    (assignRootIndicesFrom rim start keys).getD i 0 =
      match findEntry rim (keys.getD i default) with
      | some r => r
      | none => start + i := by
  induction keys generalizing start i with
  | nil => simp at hi
  | cons k rest ih =>
    cases i with
    | zero =>
      show ((match findEntry rim k with
              | some r => r
              | none => start) :: assignRootIndicesFrom rim (start + 1) rest).getD 0 0 = _
      rw [List.getD_cons_zero, List.getD_cons_zero]
      cases findEntry rim k <;> simp
    | succ j =>
      have hj : j < rest.length := by simpa using hi
      show ((match findEntry rim k with
              | some r => r
              | none => start) :: assignRootIndicesFrom rim (start + 1) rest).getD (j + 1) 0 = _
      rw [List.getD_cons_succ, List.getD_cons_succ, ih (start + 1) j hj]
      have harith : start + 1 + j = start + (j + 1) := by omega
      rw [harith]

/-- Claim C8: a discovered binding at position `i` of its collection receives,
as its root/table index, the root parameter index of the first raw-reflection
binding point with the same `(name, stage)` key when one was recorded in
`rootIndexMap`, and its discovery-order position `i` otherwise. -/
theorem C8_root_index_tiebreak (bindingPoints : List ResourceBindingData)
    (keys : List (String × ShaderStage)) (i : Nat) (hi : i < keys.length) :
    (assignRootIndicesFrom (buildRootIndexMap bindingPoints) 0 keys).getD i 0 =
      match firstKeyIndex (keys.getD i default) bindingPoints with
      | some r => r
      | none => i := by
  rw [assignRootIndicesFrom_getD _ _ 0 i hi, buildRootIndexMap_lookup]
  cases firstKeyIndex (keys.getD i default) bindingPoints <;> simp

theorem C8_root_index_tiebreak_witness :
    ((assignRootIndicesFrom (buildRootIndexMap bindingPoints0) 0 keys0).getD 0 0 =
      match firstKeyIndex (keys0.getD 0 default) bindingPoints0 with
      | some r => r
      | none => 0) ∧
    ((assignRootIndicesFrom (buildRootIndexMap bindingPoints0) 0 keys0).getD 1 0 =
      match firstKeyIndex (keys0.getD 1 default) bindingPoints0 with
      | some r => r
      | none => 1) :=
  ⟨C8_root_index_tiebreak bindingPoints0 keys0 0 (by decide),
   C8_root_index_tiebreak bindingPoints0 keys0 1 (by decide)⟩

/-- Claim C9: each batch-creation operation called with count zero returns an
empty result (`begin == end`) and creates no backing device objects:
`createConstantBuffers` counts by `sizes`, `createShaderResourceViews` by
`data`, and `createSamplers` by `names`. -/
theorem C9_zero_count_empty (names : List String)
    (stage stageSRV stageSampler : ShaderStage) :
    createConstantBuffers names [] stage = ⟨[], 0, 0⟩ ∧
    createShaderResourceViews names [] stageSRV = ⟨[], 0⟩ ∧
    createSamplers [] stageSampler = ⟨[], 0⟩ :=
  ⟨rfl, rfl, rfl⟩

theorem land_mask64_eq (y : Nat) (hy : y < 2 ^ 64) :
    y &&& (2 ^ 64 - 256) = 256 * (y / 256) := by
  have hmask : (2 : Nat) ^ 64 - 256 = 2 ^ 8 * (2 ^ 56 - 1) := by norm_num
  have htgt : 256 * (y / 256) = 2 ^ 8 * (y / 2 ^ 8) := by norm_num
  rw [hmask, htgt]
  apply Nat.eq_of_testBit_eq
  intro i
  rw [Nat.testBit_and, Nat.testBit_mul_pow_two, Nat.testBit_mul_pow_two,
    Nat.testBit_two_pow_sub_one, ← Nat.shiftRight_eq_div_pow, Nat.testBit_shiftRight]
  by_cases h8 : 8 ≤ i
  · have hidx : 8 + (i - 8) = i := by omega
    rw [hidx]
    by_cases h64 : i < 64
    · have h56 : i - 8 < 56 := by omega
      simp [ge_iff_le, h8, h56]
    · have hbit : y.testBit i = false :=
        Nat.testBit_lt_two_pow
          (lt_of_lt_of_le hy (Nat.pow_le_pow_right (by norm_num) (by omega)))
      have h56 : ¬ i - 8 < 56 := by omega
      simp [ge_iff_le, h8, h56, hbit]
  · simp [ge_iff_le, h8]

theorem align256_eq (s : Nat) (hs : s + 255 < 2 ^ 64) :
    align256 s = 256 * ((s + 255) / 256) := by
  unfold align256
  rw [Nat.mod_eq_of_lt hs]
  exact land_mask64_eq (s + 255) hs

theorem getD_map_range {β : Type} (n : Nat) (f : Nat → β) (i : Nat) (d : β)
    (hi : i < n) : ((List.range n).map f).getD i d = f i := by
  simp [List.getD, List.get?_eq_getElem?, List.getElem?_map, List.getElem?_range, hi]

theorem createConstantBuffers_nonzero (names : List String) (sizes : List Nat)
    (stage : ShaderStage) (hnz : sizes ≠ []) :
    createConstantBuffers names sizes stage =
      { buffers := (List.range sizes.length).map (fun i =>
          { name := names.getD i ""
            sizeInBytes := align256 (sizes.getD i 0)
            stage := stage
            index := i
            viewOffset := ((sizes.take i).map align256).sum
            mapped := [] })
        deviceObjectsCreated := 2 + sizes.length
        resourceSizeInBytes := (sizes.map align256).sum } := by
  unfold createConstantBuffers
  rw [if_neg (by simpa using hnz)]

/-- Claim C10: every constant buffer is created with recorded size
`(s + 255) & ~255`, the least multiple of 256 that is at least `s`; a batch
request creates a single backing resource of the summed aligned sizes, places
buffer `i`'s view at the running sum of the aligned sizes before it, and
records buffer `i`'s size as the aligned size of its request. -/
theorem C10_constant_buffer_alignment (name : String) (s : Nat) (names : List String)
    (sizes : List Nat) (stage : ShaderStage) (i : Nat)
    (hs : s + 255 < 2 ^ 64) (hnz : sizes ≠ []) (hi : i < sizes.length) :
    (createConstantBuffer name s).sizeInBytes = align256 s ∧
    align256 s = 256 * ((s + 255) / 256) ∧
    s ≤ align256 s ∧
    align256 s < s + 256 ∧
    256 ∣ align256 s ∧
    (createConstantBuffers names sizes stage).resourceSizeInBytes
      = (sizes.map align256).sum ∧
    ((createConstantBuffers names sizes stage).buffers.getD i default).sizeInBytes
      = align256 (sizes.getD i 0) ∧
    ((createConstantBuffers names sizes stage).buffers.getD i default).viewOffset
      = ((sizes.take i).map align256).sum := by
  have heq := align256_eq s hs
  refine ⟨rfl, heq, by omega, by omega, ?_, ?_, ?_, ?_⟩
  · rw [heq]
    exact dvd_mul_right 256 _
  · rw [createConstantBuffers_nonzero names sizes stage hnz]
  · simp only [createConstantBuffers_nonzero names sizes stage hnz]
    rw [getD_map_range sizes.length _ i default hi]
  · simp only [createConstantBuffers_nonzero names sizes stage hnz]
    rw [getD_map_range sizes.length _ i default hi]

theorem C10_constant_buffer_alignment_witness :
    align256 5 = 256 * ((5 + 255) / 256) ∧
    (createConstantBuffers ["x", "y"] [300, 5] ShaderStage.STAGE_VERTEX).resourceSizeInBytes
      = ([300, 5].map align256).sum ∧
    ((createConstantBuffers ["x", "y"] [300, 5] ShaderStage.STAGE_VERTEX).buffers.getD 1
        default).viewOffset
      = (([300, 5].take 1).map align256).sum :=
  ⟨(C10_constant_buffer_alignment "a" 5 ["x", "y"] [300, 5] ShaderStage.STAGE_VERTEX 1
      (by decide) (by decide) (by decide)).2.1,
   (C10_constant_buffer_alignment "a" 5 ["x", "y"] [300, 5] ShaderStage.STAGE_VERTEX 1
      (by decide) (by decide) (by decide)).2.2.2.2.2.1,
   (C10_constant_buffer_alignment "a" 5 ["x", "y"] [300, 5] ShaderStage.STAGE_VERTEX 1
      (by decide) (by decide) (by decide)).2.2.2.2.2.2.2⟩

end SpiderEngine
